import Mathlib

/-!
Shallow embedding of the RedisBridge dispatch and correlation core
(src/RedisBridge/bridge.py, src/RedisBridge/interfaces/callback.py,
src/RedisBridge/messages/base.py, src/RedisBridge/messages/request_response.py)
together with theorems settling the frozen claims about it.

Python dictionaries are modelled as insertion-ordered association lists
(Python 3.7+ dicts preserve insertion order); Python sets of observers are
modelled as duplicate-free lists where only membership and emptiness are
observed.  Observers and callbacks are identified by natural numbers.
Transport side effects (subscribe / unsubscribe / flushdb / thread control)
are modelled as explicit effect lists returned alongside the new state.
Fallible Python code (statements that can raise KeyError / AttributeError)
returns Option.
-/

set_option autoImplicit false

namespace RedisBridge

/-- Lookup in an insertion-ordered association list (Python dict read). -/
def alFind {κ ν : Type} [DecidableEq κ] : List (κ × ν) → κ → Option ν
  | [], _ => none
  | (k, v) :: rest, key => if k = key then some v else alFind rest key

/-- Assignment in an insertion-ordered association list (Python dict write):
updates the value in place if the key exists, otherwise appends the key at
the end, exactly as Python dict assignment does. -/
def alSet {κ ν : Type} [DecidableEq κ] : List (κ × ν) → κ → ν → List (κ × ν)
  | [], key, v => [(key, v)]
  | (k, w) :: rest, key, v =>
      if k = key then (k, v) :: rest else (k, w) :: alSet rest key v

/-- Deletion from an association list (Python `del d[k]`). -/
def alErase {κ ν : Type} [DecidableEq κ] : List (κ × ν) → κ → List (κ × ν)
  | [], _ => []
  | (k, v) :: rest, key => if k = key then rest else (k, v) :: alErase rest key

/-- Keys of an association list in insertion order (Python `d.keys()`). -/
def alKeys {κ ν : Type} (t : List (κ × ν)) : List κ :=
  t.map Prod.fst

/-! ### Bridge observer registry (src/RedisBridge/bridge.py)

The bridge maintains `self._observers`, a dict from channel name to the set
of registered observer objects, and issues pubsub subscribe / unsubscribe
commands to the transport.  `RedisBridge.register` (lines 123-140) and
`RedisBridge.deregister` (lines 143-169) are embedded below. -/

/-- Transport operation issued to the redis pubsub connection. -/
inductive TransportOp
  | subscribeOp (channel : String)
  | unsubscribeOp (channel : String)
deriving DecidableEq, Repr

/-- Bridge observer-registry state: the `self._observers` dict mapping a
channel name to the set of observer ids registered on it. -/
structure ObsState where
  observers : List (String × List Nat)
deriving DecidableEq, Repr

/-- Python `set.add`: add the element if not already present. -/
def setAdd (s : List Nat) (x : Nat) : List Nat :=
  if x ∈ s then s else s ++ [x]

/-- Python `set.remove` on a duplicate-free list (the element is assumed
present; callers check membership or propagate the KeyError). -/
def setRemove (s : List Nat) (x : Nat) : List Nat :=
  s.filter (fun y => y ≠ x)

/-- Embedding of `RedisBridge.register` (bridge.py lines 123-140): if the
channel is not yet a key of `self._observers`, subscribe to it through the
transport and create an empty entry; then add the observer to the entry.
Note that the test is on dict *key* presence, not on the entry being
non-empty. -/
def register (st : ObsState) (observer : Nat) (channel : String) :
    ObsState × List TransportOp :=
  match alFind st.observers channel with
  | some s => (⟨alSet st.observers channel (setAdd s observer)⟩, [])
  | none =>
      (⟨alSet st.observers channel (setAdd [] observer)⟩,
       [TransportOp.subscribeOp channel])

/-- First phase of `RedisBridge.deregister` (bridge.py lines 152-163):
remove the observer from the given channel, or from every channel holding
it when no channel is given.  The explicit-channel branch executes
`self._observers[channel].remove(observer)`, which raises KeyError when the
channel is not a key or the observer is not in the set; this is modelled by
returning none. -/
def deregisterPhase1 (t : List (String × List Nat)) (observer : Nat)
    (channel : Option String) : Option (List (String × List Nat)) :=
  match channel with
  | none =>
      some (t.map (fun p =>
        if observer ∈ p.2 then (p.1, setRemove p.2 observer) else p))
  | some c =>
      match alFind t c with
      | none => none
      | some s =>
          if observer ∈ s then some (alSet t c (setRemove s observer))
          else none

/-- Channels whose observer set is empty, in dict insertion order
(bridge.py lines 166-169 iterates all of `self._observers.keys()`). -/
def emptyChannels (t : List (String × List Nat)) : List String :=
  (t.filter (fun p => p.2.isEmpty)).map Prod.fst

/-- Embedding of `RedisBridge.deregister` (bridge.py lines 143-169): after
removing the observer, unsubscribe from *every* channel whose observer set
is empty — the dict entry itself is never deleted, so a channel emptied by
an earlier call is unsubscribed again on every later call. -/
def deregister (st : ObsState) (observer : Nat) (channel : Option String) :
    Option (ObsState × List TransportOp) :=
  match deregisterPhase1 st.observers observer channel with
  | none => none
  | some t =>
      some (⟨t⟩, (emptyChannels t).map TransportOp.unsubscribeOp)

/-- A register or deregister call on the bridge. -/
inductive BridgeEvent
  | regEv (observer : Nat) (channel : String)
  | deregEv (observer : Nat) (channel : Option String)
deriving DecidableEq, Repr

/-- One bridge call, returning the new state and the transport operations
it issued (none on a KeyError). -/
def stepBridge (st : ObsState) : BridgeEvent → Option (ObsState × List TransportOp)
  | BridgeEvent.regEv o c => some (register st o c)
  | BridgeEvent.deregEv o c => deregister st o c

/-- Run a sequence of bridge calls from a state, accumulating the transport
operation log. -/
def runBridgeFrom (st : ObsState) : List BridgeEvent → Option (ObsState × List TransportOp)
  | [] => some (st, [])
  | e :: rest =>
      match stepBridge st e with
      | none => none
      | some (st1, log1) =>
          match runBridgeFrom st1 rest with
          | none => none
          | some (st2, log2) => some (st2, log1 ++ log2)

/-- Run a sequence of bridge calls from the initial (empty) registry. -/
def runBridge (events : List BridgeEvent) : Option (ObsState × List TransportOp) :=
  runBridgeFrom ⟨[]⟩ events

/-- Transport-side subscription set reached by applying an operation log
(redis pubsub: subscribe adds the channel, unsubscribe removes it; both are
idempotent on the transport side). -/
def applyOps (subs : List String) : List TransportOp → List String
  | [] => subs
  | TransportOp.subscribeOp c :: rest =>
      applyOps (if c ∈ subs then subs else subs ++ [c]) rest
  | TransportOp.unsubscribeOp c :: rest =>
      applyOps (subs.filter (fun d => d ≠ c)) rest

/-- Observer entries currently registered for a channel. -/
def channelEntries (st : ObsState) (channel : String) : List Nat :=
  (alFind st.observers channel).getD []

/-! ### Bridge lifecycle: start / stop (bridge.py lines 192-231)

`start` subscribes to the internal control channel, then calls
`self._connection.flushdb()` unconditionally — before the check whether the
dispatch thread is already running — and `stop` calls it whenever a
connection exists.  The connection is modelled by its database keyspace;
`threadAlive` models `self._thread` being set and alive. -/

/-- Redis connection state: the keys stored in the configured database. -/
structure Conn where
  keysDb : List String
deriving DecidableEq, Repr

/-- Bridge lifecycle state. -/
structure RunState where
  connection : Option Conn
  threadAlive : Bool
deriving DecidableEq, Repr

/-- Effects of the lifecycle methods. -/
inductive RunEffect
  | subscribeControl
  | flushdbEffect
  | warnAlreadyRunning
  | startThreadEffect
  | stopThreadEffect (timeout : Option Nat)
  | closePubsubEffect
deriving DecidableEq, Repr

/-- Embedding of `RedisBridge.start` (bridge.py lines 192-210): subscribe
the control channel, flush the whole database, then either warn (already
running) or start the dispatch thread.  With no connection the attribute
access would raise, modelled as none; a constructed bridge always has a
connection (bridge.py lines 62-96 always end in a live or mock connection). -/
def start (st : RunState) : Option (RunState × List RunEffect) :=
  match st.connection with
  | none => none
  | some _ =>
      if st.threadAlive then
        some ({ st with connection := some ⟨[]⟩ },
          [RunEffect.subscribeControl, RunEffect.flushdbEffect,
           RunEffect.warnAlreadyRunning])
      else
        some ({ st with connection := some ⟨[]⟩, threadAlive := true },
          [RunEffect.subscribeControl, RunEffect.flushdbEffect,
           RunEffect.startThreadEffect])

/-- Embedding of `RedisBridge.stop` (bridge.py lines 213-231): stop and
join the dispatch thread if present, close the pubsub object if present,
and flush the whole database if a connection exists. -/
def stop (st : RunState) (timeout : Option Nat) : RunState × List RunEffect :=
  let threadLog :=
    if st.threadAlive then [RunEffect.stopThreadEffect timeout] else []
  let pubsubLog :=
    if st.connection.isSome then [RunEffect.closePubsubEffect] else []
  match st.connection with
  | some _ =>
      ({ st with connection := some ⟨[]⟩, threadAlive := false },
       threadLog ++ pubsubLog ++ [RunEffect.flushdbEffect])
  | none =>
      ({ st with threadAlive := false }, threadLog ++ pubsubLog)

/-! ### Message codec (src/RedisBridge/messages)

Payload values are modelled by `PyVal`: strings and ints stand for the
JSON-serializable Python values, `pobj` for an arbitrary object that
`json.dumps` rejects with a TypeError.  `pickle.dumps` followed by the
base64 codec (base.py line 97) is modelled by an injective encoding
`pickleB64` into strings, with `unpickleB64` its partial inverse — like the
real pair, `unpickleB64` also succeeds on some strings that were never
produced by the encoder (any string starting with the right tag), which is
exactly what `Message._decode` lines 113-117 relies on and what breaks the
round trip for such string payloads. -/

/-- Python payload values. -/
inductive PyVal
  | pstr (s : String)
  | pint (n : Nat)
  | pobj (tag : Nat)
deriving DecidableEq, Repr

/-- Whether `json.dumps` accepts the payload directly. -/
def jsonSerializable : PyVal → Bool
  | PyVal.pstr _ => true
  | PyVal.pint _ => true
  | PyVal.pobj _ => false

/-- Unary rendering of a natural number, used by the pickle model. -/
def natUnary : Nat → List Char
  | 0 => []
  | n + 1 => 'x' :: natUnary n

/-- Model of `codecs.encode(pickle.dumps(v), base64).decode()`: an injective
encoding of a payload into a tagged string. -/
def pickleB64 : PyVal → String
  | PyVal.pstr s => ⟨'S' :: s.data⟩
  | PyVal.pint n => ⟨'I' :: natUnary n⟩
  | PyVal.pobj t => ⟨'O' :: natUnary t⟩

/-- Model of `pickle.loads(codecs.decode(s.encode(), base64))`: the partial
inverse of `pickleB64`.  It succeeds on every string carrying a valid tag,
whether or not the string was produced by `pickleB64`. -/
def unpickleB64 (s : String) : Option PyVal :=
  match s.data with
  | 'S' :: rest => some (PyVal.pstr ⟨rest⟩)
  | 'I' :: rest =>
      if rest.all (fun c => c = 'x') then some (PyVal.pint rest.length) else none
  | 'O' :: rest =>
      if rest.all (fun c => c = 'x') then some (PyVal.pobj rest.length) else none
  | _ => none

/-- JSON value occupying the data field of the wire dictionary. -/
inductive JVal
  | jstr (s : String)
  | jint (n : Nat)
deriving DecidableEq, Repr

/-- Message kind: the concrete class of the envelope
(messages.Message / Request / Response). -/
inductive Kind
  | message
  | request
  | response
deriving DecidableEq, Repr

/-- Python class name of a kind, as written into the wire field
`json_data[type]` by `Message._encode` (base.py line 89). -/
def Kind.clsName : Kind → String
  | Kind.message => "Message"
  | Kind.request => "Request"
  | Kind.response => "Response"

/-- An envelope object.  `requestId` is `some` exactly for Response
envelopes (Message and Request carry no `_request_id` attribute; decoding
always leaves it `none` for them). -/
structure Envelope where
  msgId : String
  channel : String
  kind : Kind
  data : PyVal
  requestId : Option String
deriving DecidableEq, Repr

/-- The parsed JSON wire dictionary. `requestId = none` models the absence
of the `request_id` key (present exactly when the encoded class was
Response, since only `Response.PROPERTIES` lists it). -/
structure WireMsg where
  typeName : String
  msgId : String
  channel : String
  data : JVal
  requestId : Option String
deriving DecidableEq, Repr

/-- Data-field encoding of `Message._encode` (base.py lines 91-99):
`json.dumps` embeds JSON-serializable payloads directly; on TypeError the
payload is pickled and base64-encoded into a string. -/
def encodeData : PyVal → JVal
  | PyVal.pstr s => JVal.jstr s
  | PyVal.pint n => JVal.jint n
  | PyVal.pobj t => JVal.jstr (pickleB64 (PyVal.pobj t))

/-- Embedding of `Message._encode` / `Response.PROPERTIES`: the wire
dictionary for an envelope. -/
def encode (e : Envelope) : WireMsg :=
  { typeName := e.kind.clsName
    msgId := e.msgId
    channel := e.channel
    data := encodeData e.data
    requestId := if e.kind = Kind.response then e.requestId else none }

/-- Data-field decoding of `Message._decode` (base.py lines 111-117): a
string data field is tentatively unpickled; on any failure the string
itself is kept.  Non-string fields are kept as is. -/
def decodeData : JVal → PyVal
  | JVal.jint n => PyVal.pint n
  | JVal.jstr s =>
      match unpickleB64 s with
      | some p => p
      | none => PyVal.pstr s

/-- Embedding of `messages.decode` (messages/init lines 15-29) composed
with `Message._decode` / `Response._decode`: dispatch on the type name,
rebuild the envelope; a Response wire dict without a `request_id` key
raises KeyError (none), as does an unrecognized type name. -/
def decode (w : WireMsg) : Option Envelope :=
  if w.typeName = "Message" then
    some ⟨w.msgId, w.channel, Kind.message, decodeData w.data, none⟩
  else if w.typeName = "Request" then
    some ⟨w.msgId, w.channel, Kind.request, decodeData w.data, none⟩
  else if w.typeName = "Response" then
    match w.requestId with
    | some rid => some ⟨w.msgId, w.channel, Kind.response, decodeData w.data, some rid⟩
    | none => none
  else none

/-! ### Callback registry (src/RedisBridge/interfaces/callback.py)

`self._message_processors` is a `defaultdict(list)` keyed by
`(channel, message_type)`, where `message_type` is a message class or
`None` (wildcard).  It is modelled as an association list; the empty
entries that a real defaultdict inserts on mere reads are observationally
irrelevant (an empty entry behaves as an absent key in every membership
test, lookup and removal below) and are not modelled.  Callbacks are
identified by naturals. -/

/-- Callback registry table. -/
abbrev CbTable := List ((String × Option Kind) × List Nat)

/-- Table read (defaultdict: a missing key reads as an empty list). -/
def tblGet (t : CbTable) (channel : String) (mt : Option Kind) : List Nat :=
  (alFind t (channel, mt)).getD []

/-- Embedding of `CallbackInterface._get_processors` (callback.py lines
149-160): with a concrete message type, the processors registered for that
exact type come first, followed by the wildcard (None) processors. -/
def getProcessors (t : CbTable) (channel : String) (mt : Option Kind) : List Nat :=
  match mt with
  | none => tblGet t channel none
  | some k => tblGet t channel (some k) ++ tblGet t channel none

/-- Effects of register_callback / deregister_callback towards the logger
and the underlying bridge. -/
inductive RegistryEffect
  | warnDuplicate
  | bridgeRegister (channel : String)
  | bridgeDeregister (channel : String)
deriving DecidableEq, Repr

/-- Embedding of `CallbackInterface.register_callback` (callback.py lines
34-74).  The argument-validation branches only emit log lines and never
alter state or control flow, so they are elided.  A callback already among
`_get_processors(channel, message_type)` is warned about and not added;
otherwise it is appended to its key's list and the interface registers with
the bridge for the channel. -/
def registerCallback (t : CbTable) (cb : Nat) (channel : String) (mt : Option Kind) :
    CbTable × List RegistryEffect :=
  if cb ∈ getProcessors t channel mt then
    (t, [RegistryEffect.warnDuplicate])
  else
    (alSet t (channel, mt) (tblGet t channel mt ++ [cb]),
     [RegistryEffect.bridgeRegister channel])

/-- Python `list.remove`: drop the first occurrence. -/
def listRemoveFirst : List Nat → Nat → List Nat
  | [], _ => []
  | y :: rest, x => if y = x then rest else y :: listRemoveFirst rest x

/-- First phase of `CallbackInterface.deregister_callback` (callback.py
lines 91-97): walk the table keys in order; on every key matched by the
channel / message-type arguments (None being a wildcard argument matching
any key component) that holds the callback, remove the callback from the
list and record the key in `removed`.  The recorded keys are returned in
first-hit order; the Python code collects them in a set whose iteration
order is unspecified, and none of the theorems below depends on that
order. -/
def deregPhase1 : CbTable → Nat → Option String → Option Kind →
    CbTable × List (String × Option Kind)
  | [], _, _, _ => ([], [])
  | ((c, mt), cbs) :: rest, cb, chArg, mtArg =>
      let (rest1, removed) := deregPhase1 rest cb chArg mtArg
      if (chArg = none ∨ chArg = some c) ∧ (mtArg = mt ∨ mtArg = none) ∧ cb ∈ cbs then
        (((c, mt), listRemoveFirst cbs cb) :: rest1, (c, mt) :: removed)
      else
        (((c, mt), cbs) :: rest1, removed)

/-- Second phase of `CallbackInterface.deregister_callback` (callback.py
lines 99-104): for every recorded key, delete the whole table entry, and if
`_get_processors(c)` — which reads only the wildcard entry of the channel —
is then empty, deregister the interface from the bridge for that
channel. -/
def deregPhase2 : CbTable → List (String × Option Kind) → CbTable × List RegistryEffect
  | t, [] => (t, [])
  | t, (c, mt) :: rest =>
      let t1 := alErase t (c, mt)
      let eff :=
        if getProcessors t1 c none = [] then [RegistryEffect.bridgeDeregister c] else []
      let (t2, effs) := deregPhase2 t1 rest
      (t2, eff ++ effs)

/-- Embedding of `CallbackInterface.deregister_callback` (callback.py lines
76-104). -/
def deregisterCallback (t : CbTable) (cb : Nat) (chArg : Option String)
    (mtArg : Option Kind) : CbTable × List RegistryEffect :=
  let (t1, removed) := deregPhase1 t cb chArg mtArg
  deregPhase2 t1 removed

/-- Behaviour of a callback when invoked on a message: return a value, or
raise an exception. -/
inductive CbRes
  | ok (v : Nat)
  | raises
deriving DecidableEq, Repr

/-- Value returned by a non-raising callback (0 as a dummy for raising
ones; only used under a no-raise hypothesis). -/
def CbRes.val : CbRes → Nat
  | CbRes.ok v => v
  | CbRes.raises => 0

/-- Python list comprehension `[processor(message) for processor in
processors]` (callback.py line 146): processors are invoked left to right;
the first exception aborts the comprehension and propagates.  Returns the
ids actually invoked, and the collected results (`none` when an exception
escaped). -/
def invokeAll (behavior : Nat → CbRes) : List Nat → List Nat × Option (List Nat)
  | [] => ([], some [])
  | p :: rest =>
      match behavior p with
      | CbRes.ok v =>
          let (inv, res) := invokeAll behavior rest
          (p :: inv, res.map (fun l => v :: l))
      | CbRes.raises => ([p], none)

/-- Embedding of `CallbackInterface._receive_redis` (callback.py lines
127-146): look up the processors for the message channel and its concrete
class (`type(message)` is never None), and invoke them in order. -/
def receiveRedis (t : CbTable) (behavior : Nat → CbRes) (channel : String)
    (k : Kind) : List Nat × Option (List Nat) :=
  invokeAll behavior (getProcessors t channel (some k))

/-- Observer fan-out of `RedisBridge._on_message` (bridge.py lines
374-381): each observer's `_receive_redis` runs inside its own
try / except, so an exception from one observer is caught (flag true) and
the loop continues with the remaining observers. -/
def observerLoop (behavior : Nat → CbRes) (channel : String) (k : Kind) :
    List CbTable → List Bool
  | [] => []
  | t :: rest =>
      (receiveRedis t behavior channel k).2.isNone ::
        observerLoop behavior channel k rest

/-! ### Request / response correlation (bridge.py lines 53-54, 250-281, 370-372)

`self._responses` is a `defaultdict(queue.Queue)` mapping a request id to
the queue of responses delivered for it; it is modelled as an association
list from id to the queued envelopes, where a missing key behaves as — and
on first access becomes — an empty queue.  `queue.Queue.get` is stdlib code
outside src/; it is modelled from its documented semantics: with
`timeout=None` it blocks until an item is available, with a numeric
timeout it returns an item already queued or one arriving strictly before
the deadline, and otherwise raises `queue.Empty`.  An arrival exactly at
the deadline is treated as missed; no theorem below depends on that
boundary.  The possible arrival of a matching response during the wait is
an explicit parameter `arrival` (time offset and envelope). -/

/-- Correlation table: request id to queued responses. -/
abbrev RespTable := List (String × List Envelope)

/-- Read of the defaultdict: a missing id reads as an empty queue. -/
def ddQueue (rs : RespTable) (k : String) : List Envelope :=
  (alFind rs k).getD []

/-- First access to the defaultdict: ensure the id has an entry, creating
an empty queue at the end when it is missing. -/
def ddEnsure (rs : RespTable) (k : String) : RespTable :=
  match alFind rs k with
  | some _ => rs
  | none => rs ++ [(k, [])]

/-- Embedding of the Response branch of `RedisBridge._on_message`
(bridge.py lines 370-372): `self._responses[message.request_id].put(message)`
— the defaultdict access creates a fresh slot when the request id is
unknown, and the response is enqueued into it. -/
def onResponse (rs : RespTable) (rid : String) (msg : Envelope) : RespTable :=
  match alFind rs rid with
  | some q => alSet rs rid (q ++ [msg])
  | none => rs ++ [(rid, [msg])]

/-- The correlator part of `_on_message` on a decoded envelope: only
Response instances touch the table. -/
def onMessageCorrelator (rs : RespTable) (msg : Envelope) : RespTable :=
  match msg.kind, msg.requestId with
  | Kind.response, some rid => onResponse rs rid msg
  | _, _ => rs

/-- Outcome of one `queue.Queue.get(timeout=...)` call. -/
inductive GetOutcome
  | item (e : Envelope) (rest : List Envelope)
  | emptyTimeout
  | blocksForever
deriving DecidableEq, Repr

/-- Model of `queue.Queue.get(block=True, timeout=tmo)` on a queue whose
current content is `q`, when the next matching arrival (if any) comes
`t` seconds into the wait. -/
def queueGet (q : List Envelope) (arrival : Option (Nat × Envelope))
    (timeout : Option Nat) : GetOutcome :=
  match q with
  | e :: rest => GetOutcome.item e rest
  | [] =>
      match timeout with
      | none =>
          match arrival with
          | some (_, e) => GetOutcome.item e []
          | none => GetOutcome.blocksForever
      | some limit =>
          match arrival with
          | some (t, e) =>
              if t < limit then GetOutcome.item e [] else GetOutcome.emptyTimeout
          | none => GetOutcome.emptyTimeout

/-- The TimeoutError raised by `RedisBridge.request` (bridge.py line 279):
its message interpolates exactly the request data, the channel and the
timeout value — not the request id. -/
structure RequestTimeoutError where
  dataField : String
  channelField : String
  timeoutField : Option Nat
deriving DecidableEq, Repr

/-- Result of a `RedisBridge.request` call. -/
inductive RequestResult
  | requestIdReturned (rid : String)
  | responseGot (e : Envelope)
  | requestTimeout (err : RequestTimeoutError)
  | neverReturns
deriving DecidableEq, Repr

/-- Embedding of `RedisBridge.request` (bridge.py lines 250-281) after the
publish (outbound only): non-blocking returns the request id; blocking
waits on `self._responses[msg.id]` — the defaultdict access creates the
slot — and either returns the response (popping it, the slot itself stays),
raises the TimeoutError, or blocks forever.  The slot is never deleted in
any outcome. -/
def requestCall (rs : RespTable) (reqId : String) (data : String)
    (channel : String) (blocking : Bool) (timeout : Option Nat)
    (arrival : Option (Nat × Envelope)) : RequestResult × RespTable :=
  if blocking = false then (RequestResult.requestIdReturned reqId, rs)
  else
    let q := ddQueue rs reqId
    let rs1 := ddEnsure rs reqId
    match queueGet q arrival timeout with
    | GetOutcome.item e rest => (RequestResult.responseGot e, alSet rs1 reqId rest)
    | GetOutcome.emptyTimeout =>
        (RequestResult.requestTimeout ⟨data, channel, timeout⟩, rs1)
    | GetOutcome.blocksForever => (RequestResult.neverReturns, rs1)

/-! ### Concrete instances used by the witnesses and counterexamples -/

/-- Registry with callback 1 registered first with the wildcard filter and
callback 2 registered second with the Request filter, both on channel x
(the fan-out scenario of the spec). -/
def c3Table : CbTable :=
  (registerCallback (registerCallback [] 1 "x" none).1 2 "x" (some Kind.request)).1

/-- Registry with callbacks 1 and 2 registered (in this order) with the
wildcard filter on channel m. -/
def c6Table : CbTable :=
  (registerCallback (registerCallback [] 1 "m" none).1 2 "m" none).1

/-- Behaviour where callback 1 raises and every other callback returns its
own id. -/
def c6Behavior : Nat → CbRes :=
  fun p => if p = 1 then CbRes.raises else CbRes.ok p

/-- Registry with callback 1 registered with the wildcard filter on
channel ch. -/
def c7TableWild : CbTable := (registerCallback [] 1 "ch" none).1

/-- Registry with callback 1 registered with the Request filter on
channel ch. -/
def c7TableReq : CbTable := (registerCallback [] 1 "ch" (some Kind.request)).1

/-- Registry with callbacks 1 and 2 both registered under the key
(channel c, Message). -/
def c8Table : CbTable :=
  (registerCallback (registerCallback [] 1 "c" (some Kind.message)).1 2 "c" (some Kind.message)).1

/-- A concrete response envelope answering request id i. -/
def respW : Envelope :=
  ⟨"r", "c", Kind.response, PyVal.pint 0, some "i"⟩

/-- A concrete response envelope used for the C2 round-trip witness. -/
def c2Envelope : Envelope :=
  ⟨"i1", "ch", Kind.response, PyVal.pobj 2, some "q"⟩

/-- A concrete running bridge whose database holds two keys. -/
def c10State : RunState :=
  ⟨some ⟨["k1", "k2"]⟩, true⟩

/-! ### Generic association-list lemmas -/

theorem alFind_alSet_self {κ ν : Type} [DecidableEq κ]
    (t : List (κ × ν)) (k : κ) (v : ν) : alFind (alSet t k v) k = some v := by
  induction t with
  | nil => simp [alSet, alFind]
  | cons p rest ih =>
      obtain ⟨k1, v1⟩ := p
      by_cases h : k1 = k <;> simp [alSet, alFind, h, ih]

theorem alFind_alSet_ne {κ ν : Type} [DecidableEq κ]
    (t : List (κ × ν)) (k k2 : κ) (v : ν) (h : k2 ≠ k) :
    alFind (alSet t k v) k2 = alFind t k2 := by
  induction t with
  | nil => simp [alSet, alFind, Ne.symm h]
  | cons p rest ih =>
      obtain ⟨k1, v1⟩ := p
      by_cases h1 : k1 = k
      · subst h1
        simp [alSet, alFind, Ne.symm h]
      · simp [alSet, alFind, h1, ih]

theorem alFind_append_sing_self {κ ν : Type} [DecidableEq κ]
    (t : List (κ × ν)) (k : κ) (v : ν) (h : alFind t k = none) :
    alFind (t ++ [(k, v)]) k = some v := by
  induction t with
  | nil => simp [alFind]
  | cons p rest ih =>
      obtain ⟨k1, v1⟩ := p
      by_cases h1 : k1 = k
      · simp [alFind, h1] at h
      · simp [alFind, h1] at h ⊢
        exact ih h

theorem alFind_append_sing_ne {κ ν : Type} [DecidableEq κ]
    (t : List (κ × ν)) (k : κ) (v : ν) (k2 : κ) (h : k2 ≠ k) :
    alFind (t ++ [(k, v)]) k2 = alFind t k2 := by
  induction t with
  | nil => simp [alFind, Ne.symm h]
  | cons p rest ih =>
      obtain ⟨k1, v1⟩ := p
      by_cases h1 : k1 = k2 <;> simp [alFind, h1, ih]

theorem alFind_some_mem_keys {κ ν : Type} [DecidableEq κ]
    (t : List (κ × ν)) (k : κ) (v : ν) (h : alFind t k = some v) :
    k ∈ alKeys t := by
  induction t with
  | nil => simp [alFind] at h
  | cons p rest ih =>
      obtain ⟨k1, v1⟩ := p
      by_cases h1 : k1 = k
      · simp [alKeys, h1]
      · simp [alFind, h1] at h
        simp [alKeys] at ih ⊢
        exact Or.inr (ih h)

/-! ### Codec lemmas -/

theorem natUnary_all_x (n : Nat) : (natUnary n).all (fun c => c = 'x') = true := by
  induction n with
  | zero => rfl
  | succ m ih => simp [natUnary, List.all_cons, ih]

theorem natUnary_length (n : Nat) : (natUnary n).length = n := by
  induction n with
  | zero => rfl
  | succ m ih => simp [natUnary, ih]

theorem unpickle_pickle (p : PyVal) : unpickleB64 (pickleB64 p) = some p := by
  cases p with
  | pstr s => rfl
  | pint n => simp [pickleB64, unpickleB64, natUnary_all_x, natUnary_length]
  | pobj t => simp [pickleB64, unpickleB64, natUnary_all_x, natUnary_length]

theorem decodeData_encodeData (p : PyVal)
    (h : ∀ s, p = PyVal.pstr s → unpickleB64 s = none) :
    decodeData (encodeData p) = p := by
  cases p with
  | pstr s => simp [encodeData, decodeData, h s rfl]
  | pint n => rfl
  | pobj t => simp [encodeData, decodeData, unpickle_pickle]

/-! ### Registry and correlator lemmas -/

theorem invokeAll_ok (behavior : Nat → CbRes) (ps : List Nat)
    (h : ∀ p ∈ ps, behavior p ≠ CbRes.raises) :
    invokeAll behavior ps = (ps, some (ps.map (fun p => CbRes.val (behavior p)))) := by
  induction ps with
  | nil => rfl
  | cons p rest ih =>
      cases hb : behavior p with
      | raises => exact absurd hb (h p (List.mem_cons_self p rest))
      | ok v =>
          have ih1 := ih (fun q hq => h q (List.mem_cons_of_mem p hq))
          simp [invokeAll, hb, ih1, CbRes.val]

theorem invokeAll_raises (behavior : Nat → CbRes) (pre : List Nat) (cb : Nat)
    (post : List Nat) (hpre : ∀ p ∈ pre, behavior p ≠ CbRes.raises)
    (hcb : behavior cb = CbRes.raises) :
    invokeAll behavior (pre ++ cb :: post) = (pre ++ [cb], none) := by
  induction pre with
  | nil => simp [invokeAll, hcb]
  | cons p rest ih =>
      cases hb : behavior p with
      | raises => exact absurd hb (hpre p (List.mem_cons_self p rest))
      | ok v =>
          have ih1 := ih (fun q hq => hpre q (List.mem_cons_of_mem p hq))
          simp [invokeAll, hb, ih1]

theorem alFind_ddEnsure_self (rs : RespTable) (k : String) :
    alFind (ddEnsure rs k) k = some (ddQueue rs k) := by
  unfold ddEnsure ddQueue
  cases hf : alFind rs k with
  | some q => simp [hf]
  | none => simp [hf, alFind_append_sing_self rs k [] hf]

/-! ### Claim theorems -/

/-- C1: the claim asserts that for every reachable state the bridge is
subscribed to a channel through the transport iff a registration entry for
it exists, and that no unsubscribe is ever issued again for an already
unsubscribed channel.  Evaluating the code refutes both: after
register(1, c); deregister(1, c); register(2, c) an entry for channel c
exists while the transport log leaves c unsubscribed (the second register
finds the stale dict key and skips the subscribe), and in the second run
the deregistration of observer 2 from channel b issues a second
unsubscribe for the already-empty channel a. -/
theorem c1_subscription_invariant_bug :
    runBridge [BridgeEvent.regEv 1 "c", BridgeEvent.deregEv 1 (some "c"),
        BridgeEvent.regEv 2 "c"]
      = some (⟨[("c", [2])]⟩,
          [TransportOp.subscribeOp "c", TransportOp.unsubscribeOp "c"]) ∧
    channelEntries ⟨[("c", [2])]⟩ "c" ≠ [] ∧
    "c" ∉ applyOps [] [TransportOp.subscribeOp "c", TransportOp.unsubscribeOp "c"] ∧
    (runBridge [BridgeEvent.regEv 1 "a", BridgeEvent.regEv 2 "b",
        BridgeEvent.deregEv 1 (some "a"), BridgeEvent.deregEv 2 (some "b")]).map
        (fun p => p.2.count (TransportOp.unsubscribeOp "a")) = some 2 := by
  refine ⟨by decide, by decide, by decide, by decide⟩

/-- C2 counterexample: the round trip is not the identity on all accepted
payloads — a plain string payload that happens to parse as a base64-pickle
(here tagged Shello) is transformed by the decoder into the unpickled
value. -/
theorem c2_roundtrip_counterexample :
    decode (encode ⟨"i1", "ch", Kind.message, PyVal.pstr "Shello", none⟩)
      = some ⟨"i1", "ch", Kind.message, PyVal.pstr "hello", none⟩ ∧
    decode (encode ⟨"i1", "ch", Kind.message, PyVal.pstr "Shello", none⟩)
      ≠ some ⟨"i1", "ch", Kind.message, PyVal.pstr "Shello", none⟩ := by
  refine ⟨by decide, by decide⟩

/-- C2 (amended): decoding the encoded wire form restores the envelope
field-for-field — including the pickle/base64 fallback path for
non-JSON-serializable payloads — for every envelope whose payload is not a
string that itself unpickles, and whose request id field is populated
exactly when the envelope is a Response. -/
theorem c2_roundtrip_amended (e : Envelope)
    (h1 : e.kind = Kind.response → (e.requestId).isSome = true)
    (h2 : e.kind ≠ Kind.response → e.requestId = none)
    (h3 : ∀ s, e.data = PyVal.pstr s → unpickleB64 s = none) :
    decode (encode e) = some e := by
  obtain ⟨i, c, k, d, r⟩ := e
  have hd : decodeData (encodeData d) = d :=
    decodeData_encodeData d (fun s hs => h3 s hs)
  cases k with
  | message =>
      have hr : r = none := h2 (fun hcon => Kind.noConfusion hcon)
      subst hr
      simp [encode, decode, Kind.clsName, hd]
  | request =>
      have hr : r = none := h2 (fun hcon => Kind.noConfusion hcon)
      subst hr
      simp [encode, decode, Kind.clsName, hd]
  | response =>
      obtain ⟨rid, hrid⟩ := Option.isSome_iff_exists.mp (h1 rfl)
      subst hrid
      simp [encode, decode, Kind.clsName, hd]

/-- C2 witness: the amended round trip at a concrete Response envelope
whose payload takes the pickle/base64 fallback path. -/
theorem c2_roundtrip_amended_witness :
    decode (encode c2Envelope) = some c2Envelope :=
  c2_roundtrip_amended c2Envelope (fun _ => rfl) (fun h => absurd rfl h)
    (fun _ hs => PyVal.noConfusion hs)

/-- C3 counterexample: with callback 1 registered first under the wildcard
filter and callback 2 second under the Request filter on channel x,
dispatching a Request invokes 2 then 1 — not the claimed registration
order 1 then 2. -/
theorem c3_dispatch_order_counterexample :
    (receiveRedis c3Table (fun p => CbRes.ok p) "x" Kind.request).1 = [2, 1] ∧
    (receiveRedis c3Table (fun p => CbRes.ok p) "x" Kind.request).1 ≠ [1, 2] := by
  refine ⟨by decide, by decide⟩

/-- C3 (amended): dispatch invokes exactly the callbacks registered under
the exact kind, in their registration order, followed by the callbacks
registered under the wildcard filter, in their registration order, and
returns their results in that same order; in the A/B scenario a Request
invokes B then A and a plain Message invokes only A. -/
theorem c3_dispatch_order_amended :
    (∀ (t : CbTable) (behavior : Nat → CbRes) (channel : String) (k : Kind),
        (∀ p ∈ getProcessors t channel (some k), behavior p ≠ CbRes.raises) →
        receiveRedis t behavior channel k
          = (tblGet t channel (some k) ++ tblGet t channel none,
             some ((tblGet t channel (some k) ++ tblGet t channel none).map
               (fun p => CbRes.val (behavior p))))) ∧
    receiveRedis c3Table (fun p => CbRes.ok p) "x" Kind.request
      = ([2, 1], some [2, 1]) ∧
    receiveRedis c3Table (fun p => CbRes.ok p) "x" Kind.message
      = ([1], some [1]) := by
  refine ⟨?_, by decide, by decide⟩
  intro t behavior channel k h
  have h1 := invokeAll_ok behavior (getProcessors t channel (some k)) h
  simpa [receiveRedis, getProcessors] using h1

/-- C3 witness: the general dispatch shape applied at the concrete A/B
registry. -/
theorem c3_dispatch_order_amended_witness :
    receiveRedis c3Table (fun p => CbRes.ok p) "x" Kind.request
      = (tblGet c3Table "x" (some Kind.request) ++ tblGet c3Table "x" none,
         some ((tblGet c3Table "x" (some Kind.request) ++ tblGet c3Table "x" none).map
           (fun p => CbRes.val (CbRes.ok p)))) :=
  c3_dispatch_order_amended.1 c3Table (fun p => CbRes.ok p) "x" Kind.request
    (by decide)

/-- C4 counterexample: two timed-out requests that differ only in their
request id produce identical TimeoutError values — the error carries the
request data, channel and timeout but nothing derived from the id — and
the pending slot is still in the correlation table after the timeout. -/
theorem c4_timeout_counterexample :
    requestCall [] "id1" "d" "ch" true (some 1) none
      = (RequestResult.requestTimeout ⟨"d", "ch", some 1⟩, [("id1", [])]) ∧
    (requestCall [] "id2" "d" "ch" true (some 1) none).1
      = (requestCall [] "id1" "d" "ch" true (some 1) none).1 ∧
    "id2" ≠ "id1" ∧
    alFind (requestCall [] "id1" "d" "ch" true (some 1) none).2 "id1" = some [] := by
  refine ⟨by decide, by decide, by decide, by decide⟩

/-- C4 (amended): a blocking request whose wait elapses without a matching
response fails with a TimeoutError identifying the request data, the
channel and the timeout duration (not the request id), and the pending
slot for the id remains in the correlation table after both the timeout
and a successful wait (the defaultdict entry is created on first access
and never deleted). -/
theorem c4_timeout_amended (rs : RespTable) (reqId data channel : String) :
    (∀ limit : Nat, ddQueue rs reqId = [] →
        requestCall rs reqId data channel true (some limit) none
          = (RequestResult.requestTimeout ⟨data, channel, some limit⟩,
             ddEnsure rs reqId) ∧
        alFind (ddEnsure rs reqId) reqId = some []) ∧
    (∀ (e : Envelope) (rest : List Envelope) (tmo : Option Nat)
        (arrival : Option (Nat × Envelope)),
        ddQueue rs reqId = e :: rest →
        requestCall rs reqId data channel true tmo arrival
          = (RequestResult.responseGot e, alSet (ddEnsure rs reqId) reqId rest) ∧
        alFind (alSet (ddEnsure rs reqId) reqId rest) reqId = some rest) := by
  constructor
  · intro limit hq
    refine ⟨by simp [requestCall, hq, queueGet], ?_⟩
    rw [alFind_ddEnsure_self, hq]
  · intro e rest tmo arrival hq
    refine ⟨by simp [requestCall, hq, queueGet], ?_⟩
    exact alFind_alSet_self (ddEnsure rs reqId) reqId rest

/-- C4 witness: the amended behaviour at a concrete timed-out request and
a concrete satisfied request. -/
theorem c4_timeout_amended_witness :
    (requestCall [] "i" "d" "c" true (some 1) none
       = (RequestResult.requestTimeout ⟨"d", "c", some 1⟩, ddEnsure [] "i") ∧
     alFind (ddEnsure ([] : RespTable) "i") "i" = some []) ∧
    (requestCall [("i2", [respW])] "i2" "d" "c" true none none
       = (RequestResult.responseGot respW,
          alSet (ddEnsure [("i2", [respW])] "i2") "i2" []) ∧
     alFind (alSet (ddEnsure [("i2", [respW])] "i2") "i2" []) "i2" = some []) :=
  ⟨(c4_timeout_amended [] "i" "d" "c").1 1 rfl,
   (c4_timeout_amended [("i2", [respW])] "i2" "d" "c").2 respW [] none none rfl⟩

/-- C5 counterexample: a Response whose request id matches no pending slot
is not discarded without modifying the correlation table — a fresh slot
keyed by the unmatched id is created and the response stored in it. -/
theorem c5_unmatched_response_counterexample :
    onMessageCorrelator [("other", [])]
        ⟨"r", "c", Kind.response, PyVal.pint 0, some "q"⟩
      ≠ [("other", [])] ∧
    alFind (onMessageCorrelator [("other", [])]
        ⟨"r", "c", Kind.response, PyVal.pint 0, some "q"⟩) "q"
      = some [⟨"r", "c", Kind.response, PyVal.pint 0, some "q"⟩] := by
  refine ⟨by decide, by decide⟩

/-- C5 (amended): an inbound Response whose request id matches no pending
slot is absorbed without error and leaves every existing slot untouched,
but a new slot keyed by the unmatched request id is created (the
defaultdict access) with the response enqueued in it. -/
theorem c5_unmatched_response_amended (rs : RespTable) (rid : String)
    (msg : Envelope) (h : alFind rs rid = none) :
    onResponse rs rid msg = rs ++ [(rid, [msg])] ∧
    alFind (onResponse rs rid msg) rid = some [msg] ∧
    ∀ k, k ≠ rid → alFind (onResponse rs rid msg) k = alFind rs k := by
  have h1 : onResponse rs rid msg = rs ++ [(rid, [msg])] := by
    simp [onResponse, h]
  refine ⟨h1, ?_, ?_⟩
  · rw [h1]
    exact alFind_append_sing_self rs rid [msg] h
  · intro k hk
    rw [h1]
    exact alFind_append_sing_ne rs rid [msg] k hk

/-- C5 witness: the amended behaviour at a concrete unmatched response. -/
theorem c5_unmatched_response_amended_witness :
    onResponse [("other", [])] "q" respW = [("other", []), ("q", [respW])] ∧
    alFind (onResponse [("other", [])] "q" respW) "q" = some [respW] ∧
    ∀ k, k ≠ "q" → alFind (onResponse [("other", [])] "q" respW) k
      = alFind [("other", ([] : List Envelope))] k :=
  c5_unmatched_response_amended [("other", [])] "q" respW rfl

/-- C6 counterexample: with callbacks 1 and 2 registered on the same
channel and callback 1 raising, dispatch invokes only callback 1 — the
remaining matching callback 2 of the same interface is skipped, contrary
to the claim that all remaining matching callbacks still run. -/
theorem c6_isolation_counterexample :
    2 ∈ getProcessors c6Table "m" (some Kind.message) ∧
    (receiveRedis c6Table c6Behavior "m" Kind.message).1 = [1] ∧
    2 ∉ (receiveRedis c6Table c6Behavior "m" Kind.message).1 := by
  refine ⟨by decide, by decide, by decide⟩

/-- C6 (amended): an exception raised by a callback aborts the remaining
callbacks of the same callback interface for that message (the invoked
list stops at the raising callback), but it is caught at the bridge's
per-observer boundary: the observer loop records the failure and continues
with the remaining observers, so the exception never aborts the dispatch
loop. -/
theorem c6_isolation_amended
    (behavior : Nat → CbRes) (t : CbTable) (channel : String) (k : Kind)
    (pre : List Nat) (cb : Nat) (post : List Nat)
    (hp : getProcessors t channel (some k) = pre ++ cb :: post)
    (hpre : ∀ p ∈ pre, behavior p ≠ CbRes.raises)
    (hcb : behavior cb = CbRes.raises) :
    (receiveRedis t behavior channel k).1 = pre ++ [cb] ∧
    (receiveRedis t behavior channel k).2 = none ∧
    ∀ rest, observerLoop behavior channel k (t :: rest)
      = true :: observerLoop behavior channel k rest := by
  have hrun : receiveRedis t behavior channel k = (pre ++ [cb], none) := by
    simp [receiveRedis, hp, invokeAll_raises behavior pre cb post hpre hcb]
  refine ⟨by simp [hrun], by simp [hrun], ?_⟩
  intro rest
  simp [observerLoop, hrun]

/-- C6 witness: the amended behaviour at the concrete two-callback
registry with callback 1 raising. -/
theorem c6_isolation_amended_witness :
    (receiveRedis c6Table c6Behavior "m" Kind.message).1 = [] ++ [1] ∧
    (receiveRedis c6Table c6Behavior "m" Kind.message).2 = none ∧
    ∀ rest, observerLoop c6Behavior "m" Kind.message (c6Table :: rest)
      = true :: observerLoop c6Behavior "m" Kind.message rest :=
  c6_isolation_amended c6Behavior c6Table "m" Kind.message [] 1 [2]
    (by decide) (by decide) (by decide)

/-- C7 counterexample: callback 1 is registered on channel ch under the
wildcard filter; registering it again under the *different* Request filter
is treated as a duplicate (warning, table unchanged) and no new entry is
added, contrary to the claim. -/
theorem c7_idempotent_register_counterexample :
    registerCallback c7TableWild 1 "ch" (some Kind.request)
      = (c7TableWild, [RegistryEffect.warnDuplicate]) ∧
    tblGet c7TableWild "ch" none = [1] ∧
    tblGet c7TableWild "ch" (some Kind.request) = [] := by
  refine ⟨by decide, by decide, by decide⟩

/-- C7 (amended): re-registering an identical (callback, channel, filter)
triple is a reported warning that leaves the table unchanged, and after a
successful registration the callback is visible to the duplicate check;
registering the same callback under the wildcard filter after a specific
filter adds a new distinct entry, but registering it under a specific
filter when it is already wildcard-registered on the channel is treated as
a duplicate and adds nothing. -/
theorem c7_idempotent_register_amended :
    (∀ (t : CbTable) (cb : Nat) (channel : String) (mt : Option Kind),
        cb ∈ getProcessors t channel mt →
        registerCallback t cb channel mt = (t, [RegistryEffect.warnDuplicate])) ∧
    (∀ (t : CbTable) (cb : Nat) (channel : String) (mt : Option Kind),
        cb ∉ getProcessors t channel mt →
        cb ∈ getProcessors (registerCallback t cb channel mt).1 channel mt) ∧
    (∀ (t : CbTable) (cb : Nat) (channel : String), (Kind → True) →
        cb ∉ tblGet t channel none →
        tblGet (registerCallback t cb channel none).1 channel none
          = tblGet t channel none ++ [cb]) ∧
    (∀ (t : CbTable) (cb : Nat) (channel : String) (k : Kind),
        cb ∈ tblGet t channel none →
        registerCallback t cb channel (some k) = (t, [RegistryEffect.warnDuplicate])) := by
  have hdup : ∀ (t : CbTable) (cb : Nat) (channel : String) (mt : Option Kind),
      cb ∈ getProcessors t channel mt →
      registerCallback t cb channel mt = (t, [RegistryEffect.warnDuplicate]) := by
    intro t cb channel mt h
    simp [registerCallback, h]
  refine ⟨hdup, ?_, ?_, ?_⟩
  · intro t cb channel mt h
    cases mt with
    | none =>
        have h1 : cb ∉ (alFind t (channel, none)).getD [] := by
          simpa [getProcessors, tblGet] using h
        simp [registerCallback, getProcessors, tblGet, h1, alFind_alSet_self]
    | some k =>
        simp only [registerCallback, h, if_neg h]
        simp [getProcessors, tblGet, alFind_alSet_self]
  · intro t cb channel _ h
    have h1 : cb ∉ (alFind t (channel, none)).getD [] := by
      simpa [tblGet] using h
    simp [registerCallback, getProcessors, tblGet, h1, alFind_alSet_self]
  · intro t cb channel k h
    have hmem : cb ∈ getProcessors t channel (some k) := by
      simp [getProcessors]
      exact Or.inr (by simpa [tblGet] using h)
    exact hdup t cb channel (some k) hmem

/-- C7 witness: the amended behaviour at the concrete one-callback
registries. -/
theorem c7_idempotent_register_amended_witness :
    registerCallback c7TableWild 1 "ch" (some Kind.request)
      = (c7TableWild, [RegistryEffect.warnDuplicate]) ∧
    tblGet (registerCallback c7TableReq 1 "ch" none).1 "ch" none
      = tblGet c7TableReq "ch" none ++ [1] :=
  ⟨c7_idempotent_register_amended.2.2.2 c7TableWild 1 "ch" Kind.request (by decide),
   c7_idempotent_register_amended.2.2.1 c7TableReq 1 "ch" (fun _ => trivial) (by decide)⟩

/-- C8: the claim asserts deregistration removes only the given callback's
matching entries while callbacks sharing a (channel, filter) key remain.
Evaluating the code refutes it: with callbacks 1 and 2 both under
(channel c, Message), deregistering callback 1 deletes the whole table
entry, and callback 2 is no longer registered anywhere. -/
theorem c8_deregister_frame_bug :
    tblGet c8Table "c" (some Kind.message) = [1, 2] ∧
    (deregisterCallback c8Table 1 (some "c") (some Kind.message)).1 = [] ∧
    2 ∉ tblGet (deregisterCallback c8Table 1 (some "c") (some Kind.message)).1
        "c" (some Kind.message) := by
  refine ⟨by decide, by decide, by decide⟩

/-- C9 counterexample: a blocking request with timeout 0 whose matching
response arrives 5 seconds into the wait does not block until the
response — it fails immediately with the TimeoutError. -/
theorem c9_timeout_zero_counterexample :
    (requestCall [] "i" "d" "c" true (some 0) (some (5, respW))).1
      = RequestResult.requestTimeout ⟨"d", "c", some 0⟩ := by
  decide

/-- C9 (amended): a blocking request with timeout None never fails with a
timeout error (it blocks until a response or forever), while timeout 0
fails immediately with the TimeoutError whenever no response is already
queued, and returns at once when one is. -/
theorem c9_timeout_zero_amended :
    (∀ (rs : RespTable) (reqId data channel : String)
        (arrival : Option (Nat × Envelope)) (err : RequestTimeoutError),
        (requestCall rs reqId data channel true none arrival).1
          ≠ RequestResult.requestTimeout err) ∧
    (∀ (rs : RespTable) (reqId data channel : String)
        (arrival : Option (Nat × Envelope)),
        ddQueue rs reqId = [] →
        (requestCall rs reqId data channel true (some 0) arrival).1
          = RequestResult.requestTimeout ⟨data, channel, some 0⟩) ∧
    (∀ (rs : RespTable) (reqId data channel : String)
        (arrival : Option (Nat × Envelope)) (e : Envelope) (rest : List Envelope),
        ddQueue rs reqId = e :: rest →
        (requestCall rs reqId data channel true (some 0) arrival).1
          = RequestResult.responseGot e) := by
  refine ⟨?_, ?_, ?_⟩
  · intro rs reqId data channel arrival err
    cases hq : ddQueue rs reqId with
    | cons e rest => simp [requestCall, hq, queueGet]
    | nil =>
        cases arrival with
        | none => simp [requestCall, hq, queueGet]
        | some a => simp [requestCall, hq, queueGet]
  · intro rs reqId data channel arrival hq
    cases arrival with
    | none => simp [requestCall, hq, queueGet]
    | some a => simp [requestCall, hq, queueGet]
  · intro rs reqId data channel arrival e rest hq
    simp [requestCall, hq, queueGet]

/-- C9 witness: the amended behaviour at concrete calls with timeout None
and timeout 0. -/
theorem c9_timeout_zero_amended_witness :
    (requestCall [] "i" "d" "c" true none (some (5, respW))).1
      ≠ RequestResult.requestTimeout ⟨"d", "c", none⟩ ∧
    (requestCall [] "i" "d" "c" true (some 0) (some (5, respW))).1
      = RequestResult.requestTimeout ⟨"d", "c", some 0⟩ ∧
    (requestCall [("i", [respW])] "i" "d" "c" true (some 0) none).1
      = RequestResult.responseGot respW :=
  ⟨c9_timeout_zero_amended.1 [] "i" "d" "c" (some (5, respW)) ⟨"d", "c", none⟩,
   c9_timeout_zero_amended.2.1 [] "i" "d" "c" (some (5, respW)) rfl,
   c9_timeout_zero_amended.2.2 [("i", [respW])] "i" "d" "c" none respW [] rfl⟩

/-- C10: every start() call — including on a bridge whose dispatch loop is
already running, where it additionally only warns — and every stop() call
flushes the whole backing Redis database: the flushdb effect is issued on
the connection and the configured database is left with no keys. -/
theorem c10_start_stop_flushdb (st : RunState) (c : Conn)
    (h : st.connection = some c) :
    (∃ st1 log, start st = some (st1, log) ∧
        RunEffect.flushdbEffect ∈ log ∧
        st1.connection = some ⟨[]⟩ ∧
        (st.threadAlive = true → RunEffect.warnAlreadyRunning ∈ log)) ∧
    (∀ tmo : Option Nat, RunEffect.flushdbEffect ∈ (stop st tmo).2 ∧
        (stop st tmo).1.connection = some ⟨[]⟩) := by
  obtain ⟨co, th⟩ := st
  have hco : co = some c := h
  subst hco
  cases th with
  | false =>
      exact ⟨⟨_, _, rfl, by simp, rfl, by simp⟩,
        fun tmo => ⟨by simp [stop], by simp [stop]⟩⟩
  | true =>
      exact ⟨⟨_, _, rfl, by simp, rfl, by simp⟩,
        fun tmo => ⟨by simp [stop], by simp [stop]⟩⟩

/-- C10 witness: the flush behaviour at a concrete running bridge holding
two database keys. -/
theorem c10_start_stop_flushdb_witness :
    c10State.connection = some ⟨["k1", "k2"]⟩ ∧
    ((∃ st1 log, start c10State = some (st1, log) ∧
        RunEffect.flushdbEffect ∈ log ∧
        st1.connection = some ⟨[]⟩ ∧
        (c10State.threadAlive = true → RunEffect.warnAlreadyRunning ∈ log)) ∧
     (∀ tmo : Option Nat, RunEffect.flushdbEffect ∈ (stop c10State tmo).2 ∧
        (stop c10State tmo).1.connection = some ⟨[]⟩)) :=
  ⟨rfl, c10_start_stop_flushdb c10State ⟨["k1", "k2"]⟩ rfl⟩

end RedisBridge
